/-
Verification of the authentication and security-monitoring core of the
BuildANeuralNet service (apps/api/auth.py, apps/api/monitoring.py,
apps/api/main.py), as a shallow embedding in Lean 4.

Conventions of the embedding:
* Python dicts keyed by strings are modelled as functions `String → Option α`
  (only lookup, insert and delete are ever used on them).
* Python sets of strings are modelled as functions `String → Bool`.
* `datetime.utcnow()` is modelled by passing the current time explicitly to
  every operation that reads the clock.  The login tracker and the token
  service measure time in minutes (`Nat`); the threat detector measures time
  in seconds (`Int`, since it subtracts window widths from timestamps).
* External collaborators (bcrypt verification, the database session, the
  logging sinks) are modelled as explicit parameters; a fallible collaborator
  is an `Except String _` value.
-/
import Mathlib

namespace BuildANeuralNet

/-- A string-keyed dictionary, modelled as a lookup function. -/
def Dict (α : Type) : Type := String → Option α

namespace Dict

def empty {α : Type} : Dict α := fun _ => none

def insert {α : Type} (m : Dict α) (k : String) (v : α) : Dict α :=
  fun k' => if k' = k then some v else m k'

def erase {α : Type} (m : Dict α) (k : String) : Dict α :=
  fun k' => if k' = k then none else m k'

end Dict

/-- A set of strings, modelled as its membership function
(Python `set`, used for `suspicious_ips` / `blocked_ips`). -/
def StrSet : Type := String → Bool

namespace StrSet

def empty : StrSet := fun _ => false

/-- Python `set.add`. -/
def add (s : StrSet) (x : String) : StrSet :=
  fun y => if y = x then true else s y

end StrSet

/-! ## Login Attempt Tracker (auth.py, `LoginAttemptTracker`)

Security constants from the top of auth.py. -/

def MAX_LOGIN_ATTEMPTS : Nat := 5
def LOGIN_LOCKOUT_DURATION_MINUTES : Nat := 30
def PASSWORD_MIN_LENGTH : Nat := 8

/-- One value of `self.attempts[attempt_key]`:
`{'count': …, 'first_attempt': …, 'last_attempt': …}`. -/
structure AttemptRecord where
  count : Nat
  first_attempt : Nat
  last_attempt : Nat
  deriving Repr, DecidableEq

/-- The mutable state of a `LoginAttemptTracker` instance. -/
structure LoginAttemptTracker where
  attempts : Dict AttemptRecord
  lockouts : Dict Nat

def LoginAttemptTracker.empty : LoginAttemptTracker :=
  { attempts := Dict.empty, lockouts := Dict.empty }

/-- Source: `LoginAttemptTracker.get_attempt_key`. -/
def get_attempt_key (identifier : String) : String :=
  "login_attempts:" ++ identifier

/-- Source: `LoginAttemptTracker.get_lockout_key`. -/
def get_lockout_key (identifier : String) : String :=
  "login_lockout:" ++ identifier

/-- Source: `LoginAttemptTracker.is_locked_out`, with `datetime.utcnow()` passed in as
`now`.  Returns the boolean result together with the state after the lazy
cleanup the method performs when it finds an expired lockout. -/
def is_locked_out (t : LoginAttemptTracker) (now : Nat) (identifier : String) :
    Bool × LoginAttemptTracker :=
  let lockout_key := get_lockout_key identifier
  match t.lockouts lockout_key with
  | some lockout_until =>
      if now < lockout_until then
        (true, t)
      else
        -- Lockout expired, clean up (deletes the lockout entry and, when
        -- present, the attempt record).
        (false,
          { attempts := t.attempts.erase (get_attempt_key identifier),
            lockouts := t.lockouts.erase lockout_key })
  | none => (false, t)

/-- Source: `LoginAttemptTracker.record_failed_attempt`; returns
`didTriggerLockout` and the new state.  Note that the method performs no
expiry check of its own: it increments whatever count is stored, and re-sets
`lockouts[key] = utcnow() + 30 minutes` whenever the count is ≥ 5. -/
def record_failed_attempt (t : LoginAttemptTracker) (now : Nat)
    (identifier : String) : Bool × LoginAttemptTracker :=
  let attempt_key := get_attempt_key identifier
  let rec0 :=
    match t.attempts attempt_key with
    | some r => r
    | none => { count := 0, first_attempt := now, last_attempt := now }
  let rec1 := { rec0 with count := rec0.count + 1, last_attempt := now }
  let attempts' := t.attempts.insert attempt_key rec1
  if rec1.count ≥ MAX_LOGIN_ATTEMPTS then
    (true,
      { attempts := attempts',
        lockouts := t.lockouts.insert (get_lockout_key identifier)
          (now + LOGIN_LOCKOUT_DURATION_MINUTES) })
  else
    (false, { attempts := attempts', lockouts := t.lockouts })

/-- Source: `LoginAttemptTracker.record_successful_attempt`: unconditionally deletes
both the attempt record and any lockout for the identifier. -/
def record_successful_attempt (t : LoginAttemptTracker) (identifier : String) :
    LoginAttemptTracker :=
  { attempts := t.attempts.erase (get_attempt_key identifier),
    lockouts := t.lockouts.erase (get_lockout_key identifier) }

/-! ## Password verification (auth.py, `verify_password`)

`pwd_context.verify` is an external collaborator (bcrypt); its outcome —
either a boolean or a raised exception — is passed in as an `Except` value. -/

/-- auth.py `verify_password`: returns the collaborator's boolean, and turns
any exception raised by it into `false` (after logging a
`PASSWORD_VERIFICATION_ERROR` event). -/
def verify_password (outcome : Except String Bool) : Bool :=
  match outcome with
  | .ok b => b
  | .error _ => false

/-! ## Authentication Orchestrator (auth.py, `authenticate_user`)

The database session is modelled by its only query here,
`email → Option UserRec`; the bcrypt collaborator by
`plain → hash → Except String Bool`. -/

/-- The fields of a `User` row that `authenticate_user` reads. -/
structure UserRec where
  id : String
  is_active : Bool
  hashed_password : String
  deriving Repr, DecidableEq

/-- The outcomes of `authenticate_user`: the three `HTTPException 423` raises,
the two `return False` paths, and the success path (which also stages the
last-login update on the session, outside this core). -/
inductive AuthResult where
  /-- Source: `HTTPException 423` from the client-IP lockout check. -/
  | lockedOutIp : AuthResult
  /-- Source: `return False` when no user has the given email. -/
  | userNotFound : AuthResult
  /-- Source: `HTTPException 423 "Account is deactivated"`. -/
  | inactiveUser : AuthResult
  /-- Source: `HTTPException 423` when the failed attempt just triggered a lockout. -/
  | badPasswordLocked : AuthResult
  /-- Source: `return False` on a wrong password without a lockout trigger. -/
  | badPassword : AuthResult
  /-- Source: `return user`. -/
  | authenticated (u : UserRec) : AuthResult
  deriving Repr, DecidableEq

/-- auth.py `authenticate_user`, with the module-level `login_tracker` state
threaded explicitly.  Mirrors the source's order of checks:
client-IP lockout, user lookup, `is_active`, password verification. -/
def authenticate_user (verifier : String → String → Except String Bool)
    (db : Dict UserRec) (t : LoginAttemptTracker) (now : Nat)
    (email password client_ip : String) : AuthResult × LoginAttemptTracker :=
  -- Check if IP is locked out
  let (ipLocked, t1) := is_locked_out t now client_ip
  if ipLocked then
    (.lockedOutIp, t1)
  else
    -- Find user
    match db email with
    | none =>
        -- Record failed attempt for non-existent user (against the IP)
        let (_, t2) := record_failed_attempt t1 now client_ip
        (.userNotFound, t2)
    | some user =>
        if !user.is_active then
          (.inactiveUser, t1)
        else if !(verify_password (verifier password user.hashed_password)) then
          -- Record failed attempt against the "user:<id>" identifier
          let (isLockedNow, t2) :=
            record_failed_attempt t1 now ("user:" ++ user.id)
          if isLockedNow then
            (.badPasswordLocked, t2)
          else
            (.badPassword, t2)
        else
          -- Successful authentication
          let t2 := record_successful_attempt t1 ("user:" ++ user.id)
          (.authenticated user, t2)

/-! ## Token Service (auth.py, `create_access_token` / `create_refresh_token`;
consumers `get_current_user` (auth.py) and `refresh_token` (main.py))

A JWT signed with the process secret is modelled by its claims; time is in
minutes.  `jwt.decode` on a token signed with the same secret succeeds unless
the token is expired, in which case it raises `JWTError`. -/

def ACCESS_TOKEN_EXPIRE_MINUTES : Nat := 30
def REFRESH_TOKEN_EXPIRE_DAYS : Nat := 7

/-- The claims the code puts into / reads out of a JWT
(`sub`, `type`, `exp`). -/
structure TokenPayload where
  sub : Option String
  type : Option String
  exp : Nat
  deriving Repr, DecidableEq

/-- auth.py `create_access_token` with `data = {"sub": subject}` and an
explicit `expires_delta` of `ttl` minutes (the callers in main.py always pass
`ACCESS_TOKEN_EXPIRE_MINUTES`). -/
def create_access_token (subject : String) (now ttl : Nat) : TokenPayload :=
  { sub := some subject, type := some "access", exp := now + ttl }

/-- auth.py `create_refresh_token` with `data = {"sub": subject}`. -/
def create_refresh_token (subject : String) (now : Nat) : TokenPayload :=
  { sub := some subject, type := some "refresh",
    exp := now + REFRESH_TOKEN_EXPIRE_DAYS * 24 * 60 }

/-- Source: `jwt.decode(token, SECRET_KEY, algorithms=[ALGORITHM])` on a token that
was signed with this process's secret: raises `JWTError` past expiry,
otherwise yields the claims. -/
def jwt_decode (tok : TokenPayload) (now : Nat) : Except String TokenPayload :=
  if tok.exp < now then .error "Signature has expired" else .ok tok

/-- Outcome of `get_current_user`: the user, or the single generic
`401 "Could not validate credentials"` exception. -/
inductive CurrentUserResult where
  | ok (u : UserRec) : CurrentUserResult
  | credentialsException : CurrentUserResult
  deriving Repr, DecidableEq

/-- auth.py `get_current_user`: decode the bearer token, require a `sub`
claim and `type == "access"`, then look the user up by id
(`db : id → Option UserRec`). -/
def get_current_user (tok : TokenPayload) (now : Nat) (db : Dict UserRec) :
    CurrentUserResult :=
  match jwt_decode tok now with
  | .error _ => .credentialsException
  | .ok payload =>
      match payload.sub with
      | none => .credentialsException
      | some user_id =>
          if payload.type ≠ some "access" then
            .credentialsException
          else
            match db user_id with
            | none => .credentialsException
            | some user => .ok user

/-- Outcome of the `/auth/refresh` endpoint. -/
inductive RefreshResult where
  | issued (access_token refresh_token : TokenPayload) : RefreshResult
  /-- Source: `HTTPException 401 "Invalid refresh token"` (or `"User not found"`). -/
  | unauthorized : RefreshResult
  deriving Repr, DecidableEq

/-- main.py `refresh_token`: decode the presented token, require a `sub`
claim (the source's `if not user_id` is Python falsiness, so it rejects an
empty-string `sub` as well as a missing one), look the user up, and issue a
fresh access/refresh pair.  NOTE: the endpoint never inspects the `type`
claim. -/
def refresh_token (tok : TokenPayload) (now : Nat) (db : Dict UserRec) :
    RefreshResult :=
  match jwt_decode tok now with
  | .error _ => .unauthorized
  | .ok payload =>
      match payload.sub with
      | none => .unauthorized
      | some user_id =>
          if user_id = "" then
            .unauthorized
          else
            match db user_id with
            | none => .unauthorized
            | some user =>
                .issued
                  (create_access_token user.id now ACCESS_TOKEN_EXPIRE_MINUTES)
                  (create_refresh_token user.id now)

/-! ## Token signing secret (auth.py line 20) -/

/-- Source: `SECRET_KEY = os.getenv("SECRET_KEY", "your-secret-key-change-this-in-production")`:
the environment variable's value when set, else the hard-coded default. -/
def SECRET_KEY (env : Option String) : String :=
  env.getD "your-secret-key-change-this-in-production"

/-! ## Password Policy Engine (auth.py, `PasswordValidator`)

The regular expressions of `validate_password_strength` are translated into
explicit character/substring predicates over the password's characters
(ASCII semantics, as the character classes in the source are ASCII). -/

def PASSWORD_REQUIRE_UPPERCASE : Bool := true
def PASSWORD_REQUIRE_LOWERCASE : Bool := true
def PASSWORD_REQUIRE_NUMBERS : Bool := true
def PASSWORD_REQUIRE_SPECIAL : Bool := true

/-- Source: `[A-Z]`. -/
def isAsciiUpper (c : Char) : Bool := 'A' ≤ c && c ≤ 'Z'

/-- Source: `[a-z]`. -/
def isAsciiLower (c : Char) : Bool := 'a' ≤ c && c ≤ 'z'

/-- Source: `\d` (on the ASCII passwords considered here). -/
def isAsciiDigit (c : Char) : Bool := '0' ≤ c && c ≤ '9'

/-- The fixed punctuation class `[!@#$%^&*(),.?":{}|<>]` of the source. -/
def SPECIAL_CHARS : List Char :=
  ['!', '@', '#', '$', '%', '^', '&', '*', '(', ')', ',', '.', '?', '\"',
   ':', '\x7b', '\x7d', '|', '<', '>']

def isSpecialChar (c : Char) : Bool := SPECIAL_CHARS.contains c

/-- Source: `str.lower` on one ASCII character. -/
def asciiLower (c : Char) : Char :=
  if isAsciiUpper c then Char.ofNat (c.toNat + 32) else c

/-- Source: `password.lower()`. -/
def strLower (s : String) : String := ⟨s.data.map asciiLower⟩

/-- Source: `re.search(r'(.)\1{2,}', …)`: some three consecutive equal characters. -/
def hasTripleRepeat : List Char → Bool
  | a :: b :: c :: rest => (a == b && b == c) || hasTripleRepeat (b :: c :: rest)
  | _ => false

/-- Whether `pat` occurs as a contiguous substring of the character list. -/
def containsSub (pat : List Char) : List Char → Bool
  | [] => pat.isEmpty
  | c :: rest => pat.isPrefixOf (c :: rest) || containsSub pat rest

/-- The alternatives of
`re.search(r'(012|123|234|345|456|567|678|789|890|abc|bcd|cde|def)', …)`. -/
def SEQUENTIAL_PATTERNS : List (List Char) :=
  [['0','1','2'], ['1','2','3'], ['2','3','4'], ['3','4','5'], ['4','5','6'],
   ['5','6','7'], ['6','7','8'], ['7','8','9'], ['8','9','0'],
   ['a','b','c'], ['b','c','d'], ['c','d','e'], ['d','e','f']]

/-- The `common_passwords` deny-list of the source. -/
def COMMON_PASSWORDS : List String :=
  ["password", "123456", "password123", "admin", "qwerty",
   "letmein", "welcome", "monkey", "1234567890"]

/-! The violation test of each rule, exactly as the source evaluates it. -/

def viol_length (p : String) : Bool := p.length < PASSWORD_MIN_LENGTH
def viol_upper (p : String) : Bool :=
  PASSWORD_REQUIRE_UPPERCASE && !(p.data.any isAsciiUpper)
def viol_lower (p : String) : Bool :=
  PASSWORD_REQUIRE_LOWERCASE && !(p.data.any isAsciiLower)
def viol_number (p : String) : Bool :=
  PASSWORD_REQUIRE_NUMBERS && !(p.data.any isAsciiDigit)
def viol_special (p : String) : Bool :=
  PASSWORD_REQUIRE_SPECIAL && !(p.data.any isSpecialChar)
def viol_triple (p : String) : Bool := hasTripleRepeat p.data
def viol_sequential (p : String) : Bool :=
  SEQUENTIAL_PATTERNS.any (fun pat => containsSub pat (strLower p).data)
def viol_common (p : String) : Bool := COMMON_PASSWORDS.contains (strLower p)

def MSG_LENGTH : String := "Password must be at least 8 characters long"
def MSG_UPPER : String := "Password must contain at least one uppercase letter"
def MSG_LOWER : String := "Password must contain at least one lowercase letter"
def MSG_NUMBER : String := "Password must contain at least one number"
def MSG_SPECIAL : String := "Password must contain at least one special character"
def MSG_TRIPLE : String :=
  "Password cannot contain three consecutive identical characters"
def MSG_SEQUENTIAL : String := "Password cannot contain common sequential patterns"
def MSG_COMMON : String := "Password is too common and not allowed"

/-- auth.py `PasswordValidator.validate_password_strength`: the `errors`
list grows through the eight checks in source order (none short-circuits the
others), and the first component is `len(errors) == 0`. -/
def validate_password_strength (password : String) : Bool × List String :=
  let errors : List String := []
  let errors := if viol_length password then errors ++ [MSG_LENGTH] else errors
  let errors := if viol_upper password then errors ++ [MSG_UPPER] else errors
  let errors := if viol_lower password then errors ++ [MSG_LOWER] else errors
  let errors := if viol_number password then errors ++ [MSG_NUMBER] else errors
  let errors := if viol_special password then errors ++ [MSG_SPECIAL] else errors
  let errors := if viol_triple password then errors ++ [MSG_TRIPLE] else errors
  let errors :=
    if viol_sequential password then errors ++ [MSG_SEQUENTIAL] else errors
  let errors := if viol_common password then errors ++ [MSG_COMMON] else errors
  (errors.isEmpty, errors)

/-! Specification-side view of §4.1: a fixed ordered rule set, a password is
acceptable iff it satisfies every rule, and the report lists the message of
each violated rule once, in rule order. -/

/-- One password rule: when it holds, and the message reported otherwise. -/
structure PolicyRule where
  holds : String → Bool
  msg : String

/-- The eight rules of §4.1, in the order the implementation checks them. -/
def passwordRules : List PolicyRule :=
  [⟨fun p => !(viol_length p), MSG_LENGTH⟩,
   ⟨fun p => !(viol_upper p), MSG_UPPER⟩,
   ⟨fun p => !(viol_lower p), MSG_LOWER⟩,
   ⟨fun p => !(viol_number p), MSG_NUMBER⟩,
   ⟨fun p => !(viol_special p), MSG_SPECIAL⟩,
   ⟨fun p => !(viol_triple p), MSG_TRIPLE⟩,
   ⟨fun p => !(viol_sequential p), MSG_SEQUENTIAL⟩,
   ⟨fun p => !(viol_common p), MSG_COMMON⟩]

/-- Modelled from the spec: the violation report §4.1 describes — the message
of every violated rule, each exactly once, in the fixed rule order. -/
def ruleViolations (rs : List PolicyRule) (p : String) : List String :=
  (rs.filter (fun r => !(r.holds p))).map PolicyRule.msg

/-! ## Security events (monitoring.py, `SecurityEventType`, `AlertSeverity`,
`SecurityEvent`) -/

inductive SecurityEventType where
  | LOGIN_SUCCESS | LOGIN_FAILED | LOGIN_BLOCKED | ACCOUNT_LOCKOUT
  | PASSWORD_RESET | EMAIL_VERIFICATION | SUSPICIOUS_ACTIVITY | API_ABUSE
  | UNAUTHORIZED_ACCESS | DATA_ACCESS | ADMIN_ACTION | PAYMENT_EVENT
  | CODE_EXECUTION | FILE_ACCESS | RATE_LIMIT_EXCEEDED
  deriving Repr, DecidableEq

inductive AlertSeverity where
  | LOW | MEDIUM | HIGH | CRITICAL
  deriving Repr, DecidableEq

/-- The fields of `SecurityEvent` that the threat detector populates; the
`context` dict `{"path": …, "query": …}` is modelled as the pair. -/
structure SecurityEvent where
  event_type : SecurityEventType
  user_id : Option String := none
  ip_address : Option String := none
  severity : AlertSeverity := .LOW
  description : String := ""
  context : Option (String × String) := none
  deriving Repr, DecidableEq

/-! ## Threat Detector (monitoring.py, `ThreatDetector`)

Timestamps here are in seconds (`Int`), because the detector subtracts
window widths (60 s, 30 min) from the current time.  The `defaultdict(list)`
maps are modelled as total functions defaulting to `[]`. -/

def max_failed_attempts : Nat := 5
def max_requests_per_minute : Nat := 60

structure ThreatDetector where
  failed_attempts : String → List Int
  request_patterns : String → List Int
  suspicious_ips : StrSet
  blocked_ips : StrSet

def ThreatDetector.init : ThreatDetector :=
  { failed_attempts := fun _ => [],
    request_patterns := fun _ => [],
    suspicious_ips := StrSet.empty,
    blocked_ips := StrSet.empty }

/-- Source: `deque(maxlen=100).append`: append on the right, evicting from the left
past capacity 100. -/
def appendBounded (l : List Int) (x : Int) : List Int :=
  let l' := l ++ [x]
  if l'.length > 100 then l'.drop (l'.length - 100) else l'

/-- Python `\s` (whitespace class of the `eval`/`exec` patterns). -/
def isSpaceChar (c : Char) : Bool :=
  c == ' ' || c == '\t' || c == '\n' || c == '\r' || c == '\x0b' || c == '\x0c'

/-- Source: `re` `.` outside DOTALL: any character but a newline. -/
def isNotNewline (c : Char) : Bool := !(c == '\n')

/-- Match `gap* b` at the start of the list, where every gap character must
satisfy `gapOk` (the translation of a lazy `X*?` / greedy `X*` bridge —
for a search, lazy and greedy agree on whether a match exists). -/
def matchGapThen (gapOk : Char → Bool) (b : List Char) : List Char → Bool
  | [] => b.isEmpty
  | c :: rest => b.isPrefixOf (c :: rest) || (gapOk c && matchGapThen gapOk b rest)

/-- Match `a gap* b` at the start of the list. -/
def matchGapAt (a : List Char) (gapOk : Char → Bool) (b : List Char)
    (s : List Char) : Bool :=
  a.isPrefixOf s && matchGapThen gapOk b (s.drop a.length)

/-- Source: `re.search` of `a gap* b`: a match starting at any position. -/
def searchGap (a : List Char) (gapOk : Char → Bool) (b : List Char) :
    List Char → Bool
  | [] => matchGapAt a gapOk b []
  | c :: rest => matchGapAt a gapOk b (c :: rest) || searchGap a gapOk b rest

/-- One entry of `self.suspicious_patterns`: the regex source text (used in
the event description) and its match test on the lower-cased
path+query characters. -/
structure ThreatPattern where
  regex : String
  accepts : List Char → Bool

/-- The five patterns of `ThreatDetector.__init__`, in source order.
`(\.\./){2,}` matches iff `../../` occurs; the other four are of the shape
`a gap* b`. -/
def suspicious_patterns : List ThreatPattern :=
  [⟨"(\\.\\./)\x7b2,\x7d", fun s => containsSub "../../".data s⟩,
   ⟨"<script.*?>", fun s => searchGap "<script".data isNotNewline ">".data s⟩,
   ⟨"union.*select", fun s => searchGap "union".data isNotNewline "select".data s⟩,
   ⟨"eval\\s*\\(", fun s => searchGap "eval".data isSpaceChar "(".data s⟩,
   ⟨"exec\\s*\\(", fun s => searchGap "exec".data isSpaceChar "(".data s⟩]

/-- Source: `ThreatDetector._check_malicious_patterns` on the request's path and
query string: one HIGH `SUSPICIOUS_ACTIVITY` event per pattern that matches
`path + query` case-insensitively (the loop's conditional appends are the
filter-then-map over the fixed pattern list). -/
def check_malicious_patterns (user_id : Option String) (ip_address : String)
    (path query : String) : List SecurityEvent :=
  let target := (strLower (path ++ query)).data
  (suspicious_patterns.filter (fun pat => pat.accepts target)).map
    (fun pat =>
      { event_type := .SUSPICIOUS_ACTIVITY,
        user_id := user_id,
        ip_address := some ip_address,
        severity := .HIGH,
        description := "Malicious pattern detected: " ++ pat.regex,
        context := some (path, query) })

/-- The event built by the blocked-IP branch of `analyze_request`. -/
def blockedIpEvent (ip_address : String) : SecurityEvent :=
  { event_type := .UNAUTHORIZED_ACCESS,
    ip_address := some ip_address,
    severity := .HIGH,
    description := "Request from blocked IP address" }

/-- Source: `ThreatDetector.analyze_request` (with the client IP already extracted
from the request's headers, and `path`/`query` taken from `request.url`).
Mirrors the source: the blocked-IP check appends an event but does not
return; the timestamp is then appended to the IP's window, the last-minute
count checked, and the content patterns matched. -/
def analyze_request (d : ThreatDetector) (now : Int) (ip_address : String)
    (path query : String) (user_id : Option String) :
    List SecurityEvent × ThreatDetector :=
  -- Check if IP is already blocked
  let events0 :=
    if d.blocked_ips ip_address then [blockedIpEvent ip_address] else []
  -- Rate limiting check
  let patterns' := appendBounded (d.request_patterns ip_address) now
  let request_patterns' :=
    fun ip => if ip = ip_address then patterns' else d.request_patterns ip
  let minute_ago := now - 60
  let recent_requests := patterns'.filter (fun req_time => req_time > minute_ago)
  let (events1, suspicious') :=
    if recent_requests.length > max_requests_per_minute then
      (events0 ++
        [{ event_type := .RATE_LIMIT_EXCEEDED,
           ip_address := some ip_address,
           user_id := user_id,
           severity := .MEDIUM,
           description := "Rate limit exceeded: " ++
             toString recent_requests.length ++ " requests/minute" }],
        d.suspicious_ips.add ip_address)
    else
      (events0, d.suspicious_ips)
  -- Analyze request content for malicious patterns
  let events2 := events1 ++ check_malicious_patterns user_id ip_address path query
  (events2,
    { d with request_patterns := request_patterns', suspicious_ips := suspicious' })

/-- Source: `ThreatDetector.record_failed_login`: append the timestamp, drop entries
older than 30 minutes, and block the IP (returning `True`) once the pruned
window holds ≥ 5 failures. -/
def record_failed_login (d : ThreatDetector) (now : Int) (ip_address : String) :
    Bool × ThreatDetector :=
  let attempts0 := d.failed_attempts ip_address ++ [now]
  let cutoff := now - 30 * 60
  let attempts1 := attempts0.filter (fun attempt => attempt > cutoff)
  let failed' :=
    fun ip => if ip = ip_address then attempts1 else d.failed_attempts ip
  if attempts1.length ≥ max_failed_attempts then
    (true, { d with failed_attempts := failed',
                    blocked_ips := d.blocked_ips.add ip_address })
  else
    (false, { d with failed_attempts := failed' })

/-! ## Security Event Log (monitoring.py, `SecurityLogger.log_security_event`)

The diagnostic stream (`security_logger.info`) and the database session
(`db.add`) are external collaborators; each call's outcome is an
`Except String Unit` value (`.error` models a raised exception).  When no
session is passed, `db` is `none`. -/

/-- The body of the `try:` block: write the file line, then (if a session
was given) stage the row.  An exception from either collaborator aborts the
rest of the body and escapes to the handler. -/
def log_event_body (fileSink : Except String Unit)
    (dbSink : Option (Except String Unit)) : Except String Unit := do
  fileSink
  match dbSink with
  | some add => add
  | none => pure ()

/-- Source: `SecurityLogger.log_security_event`: the whole body is wrapped in
`try/except Exception`, whose handler writes to the secondary error channel
and returns normally.  The result records whether the fallback channel was
used; it is never an `.error`.  (The event itself only determines the text
written to the sinks; any event-dependent failure is one possible behaviour
of the `fileSink` / `dbSink` collaborators, over which the theorems
quantify.) -/
def log_security_event (event : SecurityEvent) (fileSink : Except String Unit)
    (dbSink : Option (Except String Unit)) : Except String Bool :=
  match log_event_body fileSink dbSink with
  | .ok _ => .ok false
  | .error _ => .ok true  -- security_logger.error("Failed to log security event: …")

/-! ## Concrete fixtures used by the counterexamples and witnesses -/

/-- A bcrypt collaborator for the concrete scenarios: the stored hash
"is" the password (verification succeeds exactly on equality, raising
nothing). -/
def eqVerifier : String → String → Except String Bool :=
  fun plain hashed => Except.ok (plain == hashed)

/-- A user table keyed by id, holding the single active user `u1`. -/
def dbById_u1 : Dict UserRec :=
  Dict.empty.insert "u1" { id := "u1", is_active := true, hashed_password := "pw1" }

/-- A user table keyed by email, holding the single active user `u1`
(email `alice@x.com`, stored hash `pw1` under `eqVerifier`). -/
def dbByEmail_u1 : Dict UserRec :=
  Dict.empty.insert "alice@x.com"
    { id := "u1", is_active := true, hashed_password := "pw1" }

/-- A tracker state with an active lockout on the per-user identifier
`user:u1` (five failures recorded, lockout until minute 34) and nothing
recorded against any IP. -/
def trackerUserLocked : LoginAttemptTracker :=
  { attempts := Dict.empty.insert (get_attempt_key "user:u1")
      { count := 5, first_attempt := 0, last_attempt := 4 },
    lockouts := Dict.empty.insert (get_lockout_key "user:u1") 34 }

/-- The tracker state reached by recording failures for `identifier` at the
given times, starting from the empty tracker. -/
def trackerAfterFailures (identifier : String) (times : List Nat) :
    LoginAttemptTracker :=
  times.foldl (fun t n => (record_failed_attempt t n identifier).2)
    LoginAttemptTracker.empty

/-- Five failures for `ip9` at minutes 0–4: locked until minute 34. -/
def trackerIp9Locked : LoginAttemptTracker :=
  trackerAfterFailures "ip9" [0, 1, 2, 3, 4]

/-- A threat-detector state whose blocked set holds exactly `9.9.9.9`. -/
def detectorBlocked9 : ThreatDetector :=
  { ThreatDetector.init with blocked_ips := StrSet.empty.add "9.9.9.9" }

/-- The detector state reached by recording failed logins for `ip` at the
given times, starting from a fresh detector. -/
def detectorAfterFails (ip : String) (times : List Int) : ThreatDetector :=
  times.foldl (fun d n => (record_failed_login d n ip).2) ThreatDetector.init

/-! # Theorems

## Lemmas about the dictionary / set models -/

@[simp] theorem Dict.insert_same {α : Type} (m : Dict α) (k : String) (v : α) :
    m.insert k v k = some v := by
  simp [Dict.insert]

@[simp] theorem Dict.insert_other {α : Type} (m : Dict α) (k k' : String)
    (v : α) (h : k' ≠ k) : m.insert k v k' = m k' := by
  simp [Dict.insert, h]

@[simp] theorem Dict.erase_same {α : Type} (m : Dict α) (k : String) :
    m.erase k k = none := by
  simp [Dict.erase]

@[simp] theorem Dict.erase_other {α : Type} (m : Dict α) (k k' : String)
    (h : k' ≠ k) : m.erase k k' = m k' := by
  simp [Dict.erase, h]

@[simp] theorem StrSet.add_mem (s : StrSet) (x : String) :
    s.add x x = true := by
  simp [StrSet.add]

theorem StrSet.add_mono (s : StrSet) (x y : String) (h : s y = true) :
    s.add x y = true := by
  unfold StrSet.add
  by_cases hxy : y = x <;> simp [hxy, h]

/-! ## Lemmas describing the login-tracker transitions -/

theorem is_locked_out_none (t : LoginAttemptTracker) (now : Nat)
    (identifier : String) (h : t.lockouts (get_lockout_key identifier) = none) :
    is_locked_out t now identifier = (false, t) := by
  simp [is_locked_out, h]

theorem is_locked_out_active (t : LoginAttemptTracker) (now : Nat)
    (identifier : String) (ex : Nat)
    (h : t.lockouts (get_lockout_key identifier) = some ex) (hn : now < ex) :
    is_locked_out t now identifier = (true, t) := by
  simp [is_locked_out, h, hn]

theorem is_locked_out_expired (t : LoginAttemptTracker) (now : Nat)
    (identifier : String) (ex : Nat)
    (h : t.lockouts (get_lockout_key identifier) = some ex) (hn : ex ≤ now) :
    is_locked_out t now identifier =
      (false,
        { attempts := t.attempts.erase (get_attempt_key identifier),
          lockouts := t.lockouts.erase (get_lockout_key identifier) }) := by
  simp [is_locked_out, h, Nat.not_lt.mpr hn]

theorem record_failed_attempt_fresh (t : LoginAttemptTracker) (now : Nat)
    (identifier : String)
    (h : t.attempts (get_attempt_key identifier) = none) :
    record_failed_attempt t now identifier =
      (false,
        { attempts := t.attempts.insert (get_attempt_key identifier)
            { count := 1, first_attempt := now, last_attempt := now },
          lockouts := t.lockouts }) := by
  simp [record_failed_attempt, h, MAX_LOGIN_ATTEMPTS]

theorem record_failed_attempt_incr (t : LoginAttemptTracker) (now : Nat)
    (identifier : String) (c f l : Nat)
    (h : t.attempts (get_attempt_key identifier) =
      some { count := c, first_attempt := f, last_attempt := l })
    (hc : c + 1 < MAX_LOGIN_ATTEMPTS) :
    record_failed_attempt t now identifier =
      (false,
        { attempts := t.attempts.insert (get_attempt_key identifier)
            { count := c + 1, first_attempt := f, last_attempt := now },
          lockouts := t.lockouts }) := by
  simp [record_failed_attempt, h, Nat.not_le.mpr hc]

theorem record_failed_attempt_lock (t : LoginAttemptTracker) (now : Nat)
    (identifier : String) (c f l : Nat)
    (h : t.attempts (get_attempt_key identifier) =
      some { count := c, first_attempt := f, last_attempt := l })
    (hc : MAX_LOGIN_ATTEMPTS ≤ c + 1) :
    record_failed_attempt t now identifier =
      (true,
        { attempts := t.attempts.insert (get_attempt_key identifier)
            { count := c + 1, first_attempt := f, last_attempt := now },
          lockouts := t.lockouts.insert (get_lockout_key identifier)
            (now + LOGIN_LOCKOUT_DURATION_MINUTES) }) := by
  simp [record_failed_attempt, h, hc]

/-! ## C4 — fifth failure locks; a sixth failure before expiry -/

/-- C4 (amended): for a fresh identifier, failures 1–4 return `false`, the
5th returns `true` and `isLockedOut` is `true` immediately after, with the
lockout expiring 30 minutes after the 5th failure; a 6th failure before
expiry still reports locked, but it RE-SETS the lockout expiry to 30 minutes
after the 6th call (extending it whenever `t6 > t5`), rather than leaving
the original expiry unchanged. -/
theorem C4_fifth_failure_locks_sixth_extends
    (t : LoginAttemptTracker) (identifier : String)
    (t1 t2 t3 t4 t5 t6 now : Nat)
    (s1 s2 s3 s4 s5 : LoginAttemptTracker)
    (hs1 : s1 = (record_failed_attempt t t1 identifier).2)
    (hs2 : s2 = (record_failed_attempt s1 t2 identifier).2)
    (hs3 : s3 = (record_failed_attempt s2 t3 identifier).2)
    (hs4 : s4 = (record_failed_attempt s3 t4 identifier).2)
    (hs5 : s5 = (record_failed_attempt s4 t5 identifier).2)
    (hA : t.attempts (get_attempt_key identifier) = none)
    (hL : t.lockouts (get_lockout_key identifier) = none)
    (hnow : now < t5 + LOGIN_LOCKOUT_DURATION_MINUTES) :
    (record_failed_attempt t t1 identifier).1 = false ∧
    (record_failed_attempt s1 t2 identifier).1 = false ∧
    (record_failed_attempt s2 t3 identifier).1 = false ∧
    (record_failed_attempt s3 t4 identifier).1 = false ∧
    (record_failed_attempt s4 t5 identifier).1 = true ∧
    (is_locked_out s5 now identifier).1 = true ∧
    s5.lockouts (get_lockout_key identifier) =
      some (t5 + LOGIN_LOCKOUT_DURATION_MINUTES) ∧
    (record_failed_attempt s5 t6 identifier).1 = true ∧
    (record_failed_attempt s5 t6 identifier).2.lockouts
      (get_lockout_key identifier) =
      some (t6 + LOGIN_LOCKOUT_DURATION_MINUTES) := by
  subst hs1 hs2 hs3 hs4 hs5
  rw [record_failed_attempt_fresh t t1 identifier hA]
  rw [record_failed_attempt_incr _ t2 identifier 1 t1 t1 (by simp) (by decide)]
  rw [record_failed_attempt_incr _ t3 identifier 2 t1 t2 (by simp) (by decide)]
  rw [record_failed_attempt_incr _ t4 identifier 3 t1 t3 (by simp) (by decide)]
  rw [record_failed_attempt_lock _ t5 identifier 4 t1 t4 (by simp) (by decide)]
  rw [record_failed_attempt_lock _ t6 identifier 5 t1 t5 (by simp) (by decide)]
  refine ⟨rfl, rfl, rfl, rfl, rfl, ?_, by simp, rfl, by simp⟩
  rw [is_locked_out_active _ now identifier
    (t5 + LOGIN_LOCKOUT_DURATION_MINUTES) (by simp) hnow]

/-- C4 counterexample: for the identifier `ip9`, fresh at minute 0, with the
five failures at minutes 0–4 (lockout until minute 34), a 6th failure at
minute 5 — before expiry — still reports locked but moves the lockout expiry
to minute 35, so the original expiry timestamp is NOT left unchanged. -/
theorem C4_counterexample_sixth_call_extends_expiry :
    trackerIp9Locked.lockouts (get_lockout_key "ip9") = some 34 ∧
    (record_failed_attempt trackerIp9Locked 5 "ip9").1 = true ∧
    (record_failed_attempt trackerIp9Locked 5 "ip9").2.lockouts
      (get_lockout_key "ip9") = some 35 ∧ (35 : Nat) ≠ 34 := by
  refine ⟨by decide, by decide, by decide, by decide⟩

/-- C4 witness: the amended theorem applied to the fresh identifier `ipw`
with failures at minutes 0,1,2,3,4,5 and `now = 10`. -/
theorem C4_witness :
    (record_failed_attempt (trackerAfterFailures "ipw" [0, 1, 2, 3]) 4 "ipw").1
      = true ∧
    (is_locked_out (trackerAfterFailures "ipw" [0, 1, 2, 3, 4]) 10 "ipw").1
      = true ∧
    (record_failed_attempt (trackerAfterFailures "ipw" [0, 1, 2, 3, 4]) 5
      "ipw").2.lockouts (get_lockout_key "ipw") = some 35 := by
  have h := C4_fifth_failure_locks_sixth_extends LoginAttemptTracker.empty
    "ipw" 0 1 2 3 4 5 10
    (trackerAfterFailures "ipw" [0])
    (trackerAfterFailures "ipw" [0, 1])
    (trackerAfterFailures "ipw" [0, 1, 2])
    (trackerAfterFailures "ipw" [0, 1, 2, 3])
    (trackerAfterFailures "ipw" [0, 1, 2, 3, 4])
    rfl rfl rfl rfl rfl rfl rfl (by decide)
  exact ⟨h.2.2.2.2.1, h.2.2.2.2.2.1, h.2.2.2.2.2.2.2.2⟩

/-! ## C5 — how a locked identifier returns to Clean -/

/-- C5 (amended): a `Locked` identifier returns to `Clean` only through the
lazy expiry check of `isLockedOut` — which, once `now` has passed the
expiry, purges the lockout entry and the attempt record together — or
through `recordSuccess`, which unconditionally clears both.  `recordFailure`
itself performs NO expiry check: it never removes a lockout and always
increments the stored failure count (so a post-expiry `recordFailure`
without an intervening `isLockedOut` continues from the stale count instead
of starting from zero).  While the lockout is active, `isLockedOut` reports
`true` and changes nothing. -/
theorem C5_locked_to_clean_paths :
    (∀ (t : LoginAttemptTracker) (now : Nat) (identifier : String) (ex : Nat),
      t.lockouts (get_lockout_key identifier) = some ex → ex ≤ now →
      is_locked_out t now identifier =
        (false,
          { attempts := t.attempts.erase (get_attempt_key identifier),
            lockouts := t.lockouts.erase (get_lockout_key identifier) })) ∧
    (∀ (t : LoginAttemptTracker) (identifier : String),
      (record_successful_attempt t identifier).attempts
          (get_attempt_key identifier) = none ∧
      (record_successful_attempt t identifier).lockouts
          (get_lockout_key identifier) = none) ∧
    (∀ (t : LoginAttemptTracker) (now : Nat) (identifier : String) (ex : Nat),
      t.lockouts (get_lockout_key identifier) = some ex → now < ex →
      is_locked_out t now identifier = (true, t)) ∧
    (∀ (t : LoginAttemptTracker) (now : Nat) (identifier : String) (c f l : Nat),
      t.attempts (get_attempt_key identifier) =
        some { count := c, first_attempt := f, last_attempt := l } →
      (record_failed_attempt t now identifier).2.attempts
          (get_attempt_key identifier) =
        some { count := c + 1, first_attempt := f, last_attempt := now }) ∧
    (∀ (t : LoginAttemptTracker) (now : Nat) (identifier : String),
      (t.lockouts (get_lockout_key identifier)).isSome = true →
      ((record_failed_attempt t now identifier).2.lockouts
          (get_lockout_key identifier)).isSome = true) := by
  refine ⟨?_, ?_, ?_, ?_, ?_⟩
  · intro t now identifier ex h hex
    exact is_locked_out_expired t now identifier ex h hex
  · intro t identifier
    constructor <;> simp [record_successful_attempt]
  · intro t now identifier ex h hex
    exact is_locked_out_active t now identifier ex h hex
  · intro t now identifier c f l h
    rcases Nat.lt_or_ge (c + 1) MAX_LOGIN_ATTEMPTS with hc | hc
    · rw [record_failed_attempt_incr t now identifier c f l h hc]
      simp
    · rw [record_failed_attempt_lock t now identifier c f l h hc]
      simp
  · intro t now identifier h
    rcases h' : t.attempts (get_attempt_key identifier) with _ | r
    · rw [record_failed_attempt_fresh t now identifier h']
      exact h
    · rcases Nat.lt_or_ge (r.count + 1) MAX_LOGIN_ATTEMPTS with hc | hc
      · rw [record_failed_attempt_incr t now identifier r.count r.first_attempt
          r.last_attempt (by rw [h']) hc]
        exact h
      · rw [record_failed_attempt_lock t now identifier r.count r.first_attempt
          r.last_attempt (by rw [h']) hc]
        simp

/-- C5 counterexample: `ip9` is locked with expiry minute 34; at minute 40 —
past expiry — the next call for the identifier is `recordFailure`, which the
claim says evaluates the lazy expiry check and purges the entry, leaving the
failure count at zero.  Instead the code increments the stale count to 6 and
re-locks until minute 70. -/
theorem C5_counterexample_record_failure_skips_expiry :
    trackerIp9Locked.lockouts (get_lockout_key "ip9") = some 34 ∧ (34 : Nat) ≤ 40 ∧
    (record_failed_attempt trackerIp9Locked 40 "ip9").1 = true ∧
    (record_failed_attempt trackerIp9Locked 40 "ip9").2.attempts
      (get_attempt_key "ip9") =
      some { count := 6, first_attempt := 0, last_attempt := 40 } ∧
    (record_failed_attempt trackerIp9Locked 40 "ip9").2.lockouts
      (get_lockout_key "ip9") = some 70 := by
  refine ⟨by decide, by decide, by decide, by decide, by decide⟩

/-- C5 witness: the amended theorem applied to `ip9` locked until minute 34:
`isLockedOut` at minute 40 purges both entries; `recordSuccess` clears them;
`isLockedOut` at minute 10 reports locked; a `recordFailure` at minute 40
keeps the lockout present and moves the count from 5 to 6. -/
theorem C5_witness :
    is_locked_out trackerIp9Locked 40 "ip9" =
      (false,
        { attempts := trackerIp9Locked.attempts.erase (get_attempt_key "ip9"),
          lockouts := trackerIp9Locked.lockouts.erase (get_lockout_key "ip9") }) ∧
    (record_successful_attempt trackerIp9Locked "ip9").lockouts
      (get_lockout_key "ip9") = none ∧
    is_locked_out trackerIp9Locked 10 "ip9" = (true, trackerIp9Locked) ∧
    (record_failed_attempt trackerIp9Locked 40 "ip9").2.attempts
      (get_attempt_key "ip9") =
      some { count := 5 + 1, first_attempt := 0, last_attempt := 40 } ∧
    ((record_failed_attempt trackerIp9Locked 40 "ip9").2.lockouts
      (get_lockout_key "ip9")).isSome = true := by
  refine ⟨C5_locked_to_clean_paths.1 trackerIp9Locked 40 "ip9" 34 (by decide)
      (by decide),
    (C5_locked_to_clean_paths.2.1 trackerIp9Locked "ip9").2,
    C5_locked_to_clean_paths.2.2.1 trackerIp9Locked 10 "ip9" 34 (by decide)
      (by decide),
    C5_locked_to_clean_paths.2.2.2.1 trackerIp9Locked 40 "ip9" 5 0 4
      (by decide),
    C5_locked_to_clean_paths.2.2.2.2 trackerIp9Locked 40 "ip9" (by decide)⟩

/-! ## C1 — which lockouts the orchestrator consults -/

/-- C1 (amended): the orchestrator consults ONLY the per-IP identifier's
lockout before the credential check.  An active lockout on the per-user
identifier `user:<id>` does not block a correct-password attempt: when the
client IP is not locked out, the user exists, is active, and the password
verifies, `authenticate_user` returns `Authenticated(user)` — and its
success path then clears the per-user attempt record and lockout.  The
per-user lockout surfaces as `Rejected(AccountLocked)` only on
wrong-password attempts, via the `didTriggerLockout` result of
`recordFailure`. -/
theorem C1_only_ip_lockout_consulted
    (verifier : String → String → Except String Bool) (db : Dict UserRec)
    (t : LoginAttemptTracker) (now : Nat)
    (email password client_ip : String) (u : UserRec) (ex : Nat)
    (hIp : (is_locked_out t now client_ip).1 = false)
    (hDb : db email = some u)
    (hActive : u.is_active = true)
    (hPw : verify_password (verifier password u.hashed_password) = true)
    (hUserLocked : t.lockouts (get_lockout_key ("user:" ++ u.id)) = some ex)
    (hNotExpired : now < ex) :
    (authenticate_user verifier db t now email password client_ip).1 =
      AuthResult.authenticated u ∧
    (authenticate_user verifier db t now email password client_ip).2.lockouts
      (get_lockout_key ("user:" ++ u.id)) = none ∧
    (authenticate_user verifier db t now email password client_ip).2.attempts
      (get_attempt_key ("user:" ++ u.id)) = none := by
  rcases hE : is_locked_out t now client_ip with ⟨locked, t1⟩
  rw [hE] at hIp
  simp only at hIp
  subst hIp
  simp [authenticate_user, hE, hDb, hActive, hPw, record_successful_attempt]

/-- C1 counterexample: user `u1` (active, stored hash `pw1` under the
equality verifier) has an ACTIVE per-user lockout (`user:u1` locked until
minute 34, `now = 10`); no IP lockout exists.  The claim says a
correct-password `authenticate` call before expiry returns
`Rejected(AccountLocked)`; the code returns `Authenticated(u1)` (and clears
the per-user lockout), because `authenticate_user` never consults the
`user:<id>` lockout. -/
theorem C1_counterexample_user_lockout_bypassed :
    trackerUserLocked.lockouts (get_lockout_key "user:u1") = some 34 ∧
    (10 : Nat) < 34 ∧
    (authenticate_user eqVerifier dbByEmail_u1 trackerUserLocked 10
        "alice@x.com" "pw1" "1.2.3.4").1 =
      AuthResult.authenticated
        { id := "u1", is_active := true, hashed_password := "pw1" } := by
  refine ⟨by decide, by decide, by decide⟩

/-- C1 witness: the amended theorem applied to the concrete locked-user
scenario. -/
theorem C1_witness :
    (authenticate_user eqVerifier dbByEmail_u1 trackerUserLocked 10
        "alice@x.com" "pw1" "1.2.3.4").1 =
      AuthResult.authenticated
        { id := "u1", is_active := true, hashed_password := "pw1" } ∧
    (authenticate_user eqVerifier dbByEmail_u1 trackerUserLocked 10
        "alice@x.com" "pw1" "1.2.3.4").2.lockouts
      (get_lockout_key "user:u1") = none := by
  have h := C1_only_ip_lockout_consulted eqVerifier dbByEmail_u1
    trackerUserLocked 10 "alice@x.com" "pw1" "1.2.3.4"
    { id := "u1", is_active := true, hashed_password := "pw1" } 34
    (by decide) (by decide) rfl (by decide) (by decide) (by decide)
  exact ⟨h.1, h.2.1⟩

/-! ## C2 — token-kind checks at the two consuming operations -/

/-- C2 (amended): the access-verification operation (`get_current_user`)
rejects every token whose embedded kind is not `"access"` — in particular a
refresh token presented as an access token always fails with the generic
credentials exception.  The refresh operation, however, performs NO kind
check: a validly signed, unexpired ACCESS token with a non-empty subject
that resolves to a user is accepted by `/auth/refresh`, which issues a fresh
token pair for it (only a missing or empty `sub` claim is rejected there). -/
theorem C2_kind_check_one_directional :
    (∀ (subject : String) (now0 now : Nat) (db : Dict UserRec),
      get_current_user (create_refresh_token subject now0) now db =
        CurrentUserResult.credentialsException) ∧
    (∀ (tok : TokenPayload) (now : Nat) (db : Dict UserRec),
      tok.type ≠ some "access" →
      get_current_user tok now db = CurrentUserResult.credentialsException) ∧
    (∀ (subject : String) (now0 ttl now : Nat) (db : Dict UserRec) (u : UserRec),
      subject ≠ "" → db subject = some u → now ≤ now0 + ttl →
      refresh_token (create_access_token subject now0 ttl) now db =
        RefreshResult.issued
          (create_access_token u.id now ACCESS_TOKEN_EXPIRE_MINUTES)
          (create_refresh_token u.id now)) := by
  refine ⟨?_, ?_, ?_⟩
  · intro subject now0 now db
    by_cases h : now0 + REFRESH_TOKEN_EXPIRE_DAYS * 24 * 60 < now <;>
      simp [get_current_user, jwt_decode, create_refresh_token, h]
  · intro tok now db h
    by_cases hd : tok.exp < now
    · simp [get_current_user, jwt_decode, hd]
    · rcases hs : tok.sub with _ | s
      · simp [get_current_user, jwt_decode, hd, hs]
      · simp [get_current_user, jwt_decode, hd, hs, h]
  · intro subject now0 ttl now db u hne hdb hexp
    have hd : ¬ now0 + ttl < now := by omega
    simp [refresh_token, jwt_decode, create_access_token, hd, hne, hdb]

/-- C2 counterexample: an unexpired ACCESS token for the existing user `u1`,
presented to the refresh operation, is ACCEPTED (a fresh token pair is
issued) rather than rejected. -/
theorem C2_counterexample_refresh_accepts_access_token :
    (create_access_token "u1" 0 ACCESS_TOKEN_EXPIRE_MINUTES).type =
      some "access" ∧
    refresh_token (create_access_token "u1" 0 ACCESS_TOKEN_EXPIRE_MINUTES) 0
        dbById_u1 =
      RefreshResult.issued (create_access_token "u1" 0 ACCESS_TOKEN_EXPIRE_MINUTES)
        (create_refresh_token "u1" 0) ∧
    refresh_token (create_access_token "u1" 0 ACCESS_TOKEN_EXPIRE_MINUTES) 0
        dbById_u1 ≠ RefreshResult.unauthorized := by
  refine ⟨by decide, by decide, by decide⟩

/-- C2 witness: the amended theorem applied to user `u1` — a refresh token
presented as an access token is rejected, and an access token presented to
refresh is accepted. -/
theorem C2_witness :
    get_current_user (create_refresh_token "u1" 0) 5 dbById_u1 =
      CurrentUserResult.credentialsException ∧
    refresh_token (create_access_token "u1" 0 30) 5 dbById_u1 =
      RefreshResult.issued
        (create_access_token "u1" 5 ACCESS_TOKEN_EXPIRE_MINUTES)
        (create_refresh_token "u1" 5) := by
  refine ⟨C2_kind_check_one_directional.1 "u1" 0 5 dbById_u1,
    C2_kind_check_one_directional.2.2 "u1" 0 30 5 dbById_u1
      { id := "u1", is_active := true, hashed_password := "pw1" }
      (by decide) (by decide) (by decide)⟩

/-! ## C7 — the signing-secret fallback -/

/-- C7: evaluating the configuration line at the failing input — the
`SECRET_KEY` environment variable unset — shows that the program DOES fall
back silently to the publicly known default string hard-coded in auth.py,
and uses it as the token signing secret. -/
theorem C7_secret_key_falls_back_to_public_default :
    SECRET_KEY none = "your-secret-key-change-this-in-production" := by
  rfl

/-! ## C9 — the event log never raises to its caller -/

/-- C9: for every security event and every behaviour of the diagnostic
stream and of the optional database session — including either of them
raising — `log_security_event` returns normally: its result is always `.ok`.
When the body succeeded the fallback channel is unused (`.ok false`); when
the body raised, the exception is caught and routed to the secondary error
channel (`.ok true`), never propagated. -/
theorem C9_log_security_event_never_raises :
    ∀ (event : SecurityEvent) (fileSink : Except String Unit)
      (dbSink : Option (Except String Unit)),
      (log_security_event event fileSink dbSink).isOk = true ∧
      (log_event_body fileSink dbSink = Except.ok () →
        log_security_event event fileSink dbSink = Except.ok false) ∧
      (∀ e : String, log_event_body fileSink dbSink = Except.error e →
        log_security_event event fileSink dbSink = Except.ok true) := by
  intro event fileSink dbSink
  refine ⟨?_, ?_, ?_⟩
  · rcases h : log_event_body fileSink dbSink <;>
      simp [log_security_event, h, Except.isOk, Except.toBool]
  · intro h
    simp [log_security_event, h]
  · intro e h
    simp [log_security_event, h]

/-- C9 witness: the theorem applied to a blocked-IP event with a raising
file sink and a raising database session. -/
theorem C9_witness :
    (log_security_event (blockedIpEvent "9.9.9.9") (Except.error "disk full")
      (some (Except.error "db down"))).isOk = true ∧
    log_security_event (blockedIpEvent "9.9.9.9") (Except.error "disk full")
      (some (Except.error "db down")) = Except.ok true := by
  refine ⟨(C9_log_security_event_never_raises (blockedIpEvent "9.9.9.9")
      (Except.error "disk full") (some (Except.error "db down"))).1,
    (C9_log_security_event_never_raises (blockedIpEvent "9.9.9.9")
      (Except.error "disk full") (some (Except.error "db down"))).2.2
      "disk full" (by rfl)⟩

/-! ## C10 — password verification is total and maps errors to `false` -/

/-- C10: for every outcome of the underlying bcrypt verification — a boolean
or a raised exception — `verify_password` returns a boolean and never
raises; every internal error yields `false`, making it indistinguishable at
the interface from a wrong password. -/
theorem C10_verify_password_total_errors_false :
    (∀ e : String, verify_password (Except.error e) = false) ∧
    (∀ e : String,
      verify_password (Except.error e) = verify_password (Except.ok false)) ∧
    (∀ outcome : Except String Bool,
      verify_password outcome = true ∨ verify_password outcome = false) := by
  refine ⟨fun e => rfl, fun e => rfl, ?_⟩
  intro outcome
  rcases outcome with e | b
  · exact Or.inr rfl
  · rcases b <;> simp [verify_password]

/-! ## C6 — the password validator against the §4.1 rule set -/

theorem ruleViolations_nil (p : String) : ruleViolations [] p = [] := rfl

theorem ruleViolations_cons (r : PolicyRule) (rs : List PolicyRule) (p : String) :
    ruleViolations (r :: rs) p =
      (if r.holds p then [] else [r.msg]) ++ ruleViolations rs p := by
  simp only [ruleViolations, List.filter_cons]
  cases h : r.holds p <;> simp [h]

theorem ruleViolations_eq_nil_iff (rs : List PolicyRule) (p : String) :
    ruleViolations rs p = [] ↔ ∀ r ∈ rs, r.holds p = true := by
  induction rs with
  | nil => simp [ruleViolations_nil]
  | cons r rest ih =>
      rw [ruleViolations_cons]
      cases h : r.holds p <;> simp [h, ih]

theorem mem_ruleViolations_subset (rs : List PolicyRule) (p : String) :
    ∀ x ∈ ruleViolations rs p, x ∈ rs.map PolicyRule.msg := by
  intro x hx
  simp only [ruleViolations, List.mem_map] at hx ⊢
  obtain ⟨r, hr, hmsg⟩ := hx
  exact ⟨r, List.mem_of_mem_filter hr, hmsg⟩

theorem count_ruleViolations (p : String) :
    ∀ rs : List PolicyRule, (rs.map PolicyRule.msg).Nodup →
      ∀ r ∈ rs, (ruleViolations rs p).count r.msg =
        if r.holds p then 0 else 1 := by
  intro rs
  induction rs with
  | nil =>
      intro _ r hr
      cases hr
  | cons s rest ih =>
      intro hnd r hr
      rw [List.map_cons, List.nodup_cons] at hnd
      obtain ⟨hs, hnd'⟩ := hnd
      rw [ruleViolations_cons]
      rcases List.mem_cons.mp hr with rfl | hr'
      · have hzero : (ruleViolations rest p).count r.msg = 0 := by
          rw [List.count_eq_zero]
          intro hmem
          exact hs (mem_ruleViolations_subset rest p _ hmem)
        cases h : r.holds p <;>
          simp [h, List.count_append, hzero, List.count_cons]
      · have hne : r.msg ≠ s.msg := by
          intro he
          exact hs (he ▸ List.mem_map_of_mem PolicyRule.msg hr')
        have hrest := ih hnd' r hr'
        cases h : s.holds p <;>
          simp [h, List.count_append, hrest, List.count_cons, hne]

theorem validate_snd_eq (p : String) :
    (validate_password_strength p).2 = ruleViolations passwordRules p := by
  simp only [validate_password_strength, passwordRules, ruleViolations_cons,
    ruleViolations_nil]
  cases h1 : viol_length p <;> cases h2 : viol_upper p <;>
    cases h3 : viol_lower p <;> cases h4 : viol_number p <;>
    cases h5 : viol_special p <;> cases h6 : viol_triple p <;>
    cases h7 : viol_sequential p <;> cases h8 : viol_common p <;>
    simp [h1, h2, h3, h4, h5, h6, h7, h8]

/-- C6: for every password `p`, `validate_password_strength p` succeeds iff
`p` satisfies every one of the eight §4.1 rules simultaneously; the
violation list equals the messages of the violated rules, filtered from the
full fixed rule list in its stable order (so no rule short-circuits a later
one), and each violated rule contributes its message exactly once. -/
theorem C6_validate_iff_all_rules :
    ∀ p : String,
      ((validate_password_strength p).1 = true ↔
        ∀ r ∈ passwordRules, r.holds p = true) ∧
      (validate_password_strength p).2 = ruleViolations passwordRules p ∧
      (∀ r ∈ passwordRules,
        (validate_password_strength p).2.count r.msg =
          if r.holds p then 0 else 1) := by
  intro p
  have hsnd := validate_snd_eq p
  have hfst : (validate_password_strength p).1 =
      (validate_password_strength p).2.isEmpty := rfl
  refine ⟨?_, hsnd, ?_⟩
  · rw [hfst, hsnd, List.isEmpty_iff, ruleViolations_eq_nil_iff]
  · intro r hr
    rw [hsnd]
    exact count_ruleViolations p passwordRules (by decide) r hr

/-- C6 witness: the theorem applied to the compliant password `Aa1!xyzw`
(all eight rules satisfied, empty violation list) and to the length rule. -/
theorem C6_witness :
    ((validate_password_strength "Aa1!xyzw").1 = true ↔
      ∀ r ∈ passwordRules, r.holds "Aa1!xyzw" = true) ∧
    (validate_password_strength "Aa1!xyzw").2.count MSG_LENGTH = 0 := by
  have h := C6_validate_iff_all_rules "Aa1!xyzw"
  refine ⟨h.1, ?_⟩
  have hmem : (⟨fun q => !(viol_length q), MSG_LENGTH⟩ : PolicyRule) ∈
      passwordRules := by
    unfold passwordRules
    exact List.mem_cons_self _ _
  have h2 := h.2.2 _ hmem
  rw [if_pos (by decide)] at h2
  exact h2

/-! ## C3 — what `analyze_request` does for a blocked IP -/

/-- C3 (amended): for a request from a blocked IP, `analyze_request` puts a
HIGH-severity `UNAUTHORIZED_ACCESS` event first in its result — but it does
NOT stop there: the timestamp is still appended to the IP's sliding window,
the rate check still runs, and the malicious-pattern checks still run (any
pattern match contributes an additional event after the unauthorized one).
The blocked set itself is unchanged by `analyze_request`. -/
theorem C3_blocked_ip_no_early_return
    (d : ThreatDetector) (now : Int) (ip path query : String)
    (uid : Option String) (hB : d.blocked_ips ip = true) :
    (analyze_request d now ip path query uid).1.head? =
      some (blockedIpEvent ip) ∧
    (analyze_request d now ip path query uid).2.request_patterns ip =
      appendBounded (d.request_patterns ip) now ∧
    (analyze_request d now ip path query uid).2.blocked_ips =
      d.blocked_ips ∧
    (check_malicious_patterns uid ip path query ≠ [] →
      2 ≤ (analyze_request d now ip path query uid).1.length) := by
  by_cases hc :
      ((appendBounded (d.request_patterns ip) now).filter
        (fun req_time => req_time > now - 60)).length >
        max_requests_per_minute
  · refine ⟨?_, ?_, ?_, ?_⟩
    · simp [analyze_request, hB, hc]
    · simp [analyze_request, hB, hc]
    · simp [analyze_request, hB, hc]
    · intro hm
      have hpos : 0 < (check_malicious_patterns uid ip path query).length :=
        List.length_pos.mpr hm
      simp [analyze_request, hB, hc]
      try omega
  · refine ⟨?_, ?_, ?_, ?_⟩
    · simp [analyze_request, hB, hc]
    · simp [analyze_request, hB, hc]
    · simp [analyze_request, hB, hc]
    · intro hm
      have hpos : 0 < (check_malicious_patterns uid ip path query).length :=
        List.length_pos.mpr hm
      simp [analyze_request, hB, hc]
      try omega

/-- C3 counterexample: from the blocked IP `9.9.9.9`, a request for the
path-traversal path `/a/../../etc/passwd` yields TWO events — the
`UNAUTHORIZED_ACCESS` event followed by the `SUSPICIOUS_ACTIVITY`
pattern-match event — and the request timestamp IS appended to the IP's
rate window, contradicting "no further processing". -/
theorem C3_counterexample_blocked_ip_still_processed :
    detectorBlocked9.blocked_ips "9.9.9.9" = true ∧
    (analyze_request detectorBlocked9 0 "9.9.9.9" "/a/../../etc/passwd" ""
      none).1.length = 2 ∧
    (analyze_request detectorBlocked9 0 "9.9.9.9" "/a/../../etc/passwd" ""
      none).2.request_patterns "9.9.9.9" = [0] := by
  refine ⟨by decide, by decide, by decide⟩

/-- C3 witness: the amended theorem applied to the blocked IP `9.9.9.9`
requesting `/a/../../etc/passwd`. -/
theorem C3_witness :
    (analyze_request detectorBlocked9 0 "9.9.9.9" "/a/../../etc/passwd" ""
      none).1.head? = some (blockedIpEvent "9.9.9.9") ∧
    2 ≤ (analyze_request detectorBlocked9 0 "9.9.9.9" "/a/../../etc/passwd"
      "" none).1.length := by
  have h := C3_blocked_ip_no_early_return detectorBlocked9 0 "9.9.9.9"
    "/a/../../etc/passwd" "" none (by decide)
  exact ⟨h.1, h.2.2.2 (by decide)⟩

/-! ## C8 — five failed logins block the IP, and blocked is forever -/

theorem record_failed_login_small (d : ThreatDetector) (now : Int)
    (ip : String) (l : List Int) (h : d.failed_attempts ip = l)
    (hall : ∀ x ∈ l, now - 30 * 60 < x)
    (hlen : l.length + 1 < max_failed_attempts) :
    record_failed_login d now ip =
      (false,
        { d with failed_attempts :=
            fun j => if j = ip then l ++ [now] else d.failed_attempts j }) := by
  have hfilter : (l ++ [now]).filter (fun attempt => attempt > now - 30 * 60) =
      l ++ [now] := by
    rw [List.filter_eq_self]
    intro a ha
    rcases List.mem_append.mp ha with ha' | ha'
    · simpa using hall a ha'
    · simp at ha'
      subst ha'
      simp
  have hnot : ¬ max_failed_attempts ≤ (l ++ [now]).length := by
    simp [List.length_append]
    omega
  simp only [record_failed_login, h, hfilter, hnot, if_false]

theorem record_failed_login_block (d : ThreatDetector) (now : Int)
    (ip : String) (l : List Int) (h : d.failed_attempts ip = l)
    (hall : ∀ x ∈ l, now - 30 * 60 < x)
    (hlen : max_failed_attempts ≤ l.length + 1) :
    record_failed_login d now ip =
      (true,
        { d with
            failed_attempts :=
              fun j => if j = ip then l ++ [now] else d.failed_attempts j,
            blocked_ips := d.blocked_ips.add ip }) := by
  have hfilter : (l ++ [now]).filter (fun attempt => attempt > now - 30 * 60) =
      l ++ [now] := by
    rw [List.filter_eq_self]
    intro a ha
    rcases List.mem_append.mp ha with ha' | ha'
    · simpa using hall a ha'
    · simp at ha'
      subst ha'
      simp
  have hge : max_failed_attempts ≤ (l ++ [now]).length := by
    simp [List.length_append]
    omega
  simp only [record_failed_login, h, hfilter, hge, if_true]

set_option maxHeartbeats 1000000 in
/-- C8: five `recordFailedLogin` calls for one fresh IP within the 30-minute
window return `false` four times and `true` on the 5th — the call that
crosses the threshold — which puts the IP into the blocked set; and no
operation of the Threat Detector ever removes a blocked IP:
`record_failed_login` only ever adds to the blocked set and
`analyze_request` leaves it untouched, so membership persists for the
process lifetime. -/
theorem C8_five_failed_logins_block_ip
    (d : ThreatDetector) (ip : String) (t1 t2 t3 t4 t5 : Int)
    (d1 d2 d3 d4 : ThreatDetector)
    (h12 : t1 ≤ t2) (h23 : t2 ≤ t3) (h34 : t3 ≤ t4) (h45 : t4 ≤ t5)
    (hwin : t5 < t1 + 30 * 60)
    (hfresh : d.failed_attempts ip = [])
    (hd1 : d1 = (record_failed_login d t1 ip).2)
    (hd2 : d2 = (record_failed_login d1 t2 ip).2)
    (hd3 : d3 = (record_failed_login d2 t3 ip).2)
    (hd4 : d4 = (record_failed_login d3 t4 ip).2) :
    (record_failed_login d t1 ip).1 = false ∧
    (record_failed_login d1 t2 ip).1 = false ∧
    (record_failed_login d2 t3 ip).1 = false ∧
    (record_failed_login d3 t4 ip).1 = false ∧
    (record_failed_login d4 t5 ip).1 = true ∧
    (record_failed_login d4 t5 ip).2.blocked_ips ip = true ∧
    (∀ (e : ThreatDetector) (now : Int) (j x : String),
      e.blocked_ips x = true →
      (record_failed_login e now j).2.blocked_ips x = true) ∧
    (∀ (e : ThreatDetector) (now : Int) (j path query : String)
      (uid : Option String),
      (analyze_request e now j path query uid).2.blocked_ips =
        e.blocked_ips) := by
  subst hd1 hd2 hd3 hd4
  rw [record_failed_login_small d t1 ip [] hfresh (by simp)
    (by simp [max_failed_attempts])]
  rw [record_failed_login_small _ t2 ip [t1] (by simp)
    (by intro x hx; simp at hx; omega) (by simp [max_failed_attempts])]
  rw [record_failed_login_small _ t3 ip [t1, t2] (by simp)
    (by intro x hx; simp at hx; rcases hx with rfl | rfl <;> omega)
    (by simp [max_failed_attempts])]
  rw [record_failed_login_small _ t4 ip [t1, t2, t3] (by simp)
    (by intro x hx; simp at hx; rcases hx with rfl | rfl | rfl <;> omega)
    (by simp [max_failed_attempts])]
  rw [record_failed_login_block _ t5 ip [t1, t2, t3, t4] (by simp)
    (by intro x hx; simp at hx; rcases hx with rfl | rfl | rfl | rfl <;> omega)
    (by simp [max_failed_attempts])]
  refine ⟨rfl, rfl, rfl, rfl, rfl, by simp, ?_, ?_⟩
  · intro e now j x hx
    dsimp only [record_failed_login]
    split
    · exact StrSet.add_mono e.blocked_ips j x hx
    · exact hx
  · intro e now j path query uid
    dsimp only [analyze_request]

/-- C8 witness: the theorem applied to the fresh IP `7.7.7.7` with failed
logins at seconds 0, 60, 120, 180 and 240 — all within 30 minutes: the 5th
call returns `true` and the IP is in the blocked set. -/
theorem C8_witness :
    (record_failed_login (detectorAfterFails "7.7.7.7" [0, 60, 120, 180]) 240
      "7.7.7.7").1 = true ∧
    (record_failed_login (detectorAfterFails "7.7.7.7" [0, 60, 120, 180]) 240
      "7.7.7.7").2.blocked_ips "7.7.7.7" = true := by
  have h := C8_five_failed_logins_block_ip ThreatDetector.init "7.7.7.7"
    0 60 120 180 240
    (detectorAfterFails "7.7.7.7" [0])
    (detectorAfterFails "7.7.7.7" [0, 60])
    (detectorAfterFails "7.7.7.7" [0, 60, 120])
    (detectorAfterFails "7.7.7.7" [0, 60, 120, 180])
    (by decide) (by decide) (by decide) (by decide) (by decide)
    rfl rfl rfl rfl rfl
  exact ⟨h.2.2.2.2.1, h.2.2.2.2.2.1⟩

end BuildANeuralNet
